import Mathlib

/-!
Shallow embedding of `src/lsp_launcher.py` from pywire/vscode-pywire.

The launcher is a straight-line Python script:
1. prepend the bundled libs directory to `sys.path`;
2. prepend the sibling development server source directory to `sys.path`;
3. if `.venv` exists next to the development tree, scan `.venv/lib` for an
   entry named `python*`; on the first such entry whose `site-packages`
   subdirectory exists, prepend that directory to `sys.path` and prepend
   `.venv/bin` to the `PATH` environment variable, then stop scanning;
4. best-effort append of a JSON record to a hard-coded debug log file,
   with every exception swallowed;
5. import the server entry point and call `start()`; an `ImportError`
   raised anywhere in that block writes two lines to stderr and exits
   with status 1.

The filesystem is modelled as an oracle record `FS` (existence tests,
directory listings, lexical `abspath`, and whether opening the log file
for append succeeds).  POSIX conventions are fixed: `os.path.join` with a
relative second component is `a ++ "/" ++ b` and `os.pathsep` is `":"`.
-/

namespace PywireLauncher

/-- POSIX `os.path.join` for the relative components used by the launcher. -/
def ospathjoin (a b : String) : String := a ++ "/" ++ b

/-- POSIX `os.pathsep`. -/
def pathsep : String := ":"

/-- Python's `str.startswith`, expressed on the character lists so that it
evaluates inside the kernel. -/
def pyStartsWith (s p : String) : Bool := p.data.isPrefixOf s.data

/-- Splitting a character list on a separator character, keeping empty
segments, as Python's `str.split` / POSIX `PATH` parsing do. -/
def splitCharList (c : Char) : List Char → List (List Char)
  | [] => [[]]
  | x :: xs =>
    if x = c then [] :: splitCharList c xs
    else
      match splitCharList c xs with
      | [] => [[x]]
      | y :: ys => (x :: y) :: ys

/-- The entries of a `PATH`-style string, split on `os.pathsep`. -/
def pathEntries (s : String) : List String :=
  (splitCharList ':' s.data).map String.mk

/-- Filesystem oracle: the read queries the launcher performs, plus a
lexical `os.path.abspath` and the success of opening the debug log for
append. -/
structure FS where
  pathExists : String → Bool
  listdir : String → List String
  abspath : String → String
  openAppendOk : String → Bool

/-- The process state the launcher mutates: `sys.path` and the `PATH`
environment variable (`none` when the variable is unset). -/
structure Env where
  sysPath : List String
  pathVar : Option String
deriving DecidableEq, Repr

/-- `BUNDLED_LIBS = os.path.join(os.path.dirname(__file__), '..', 'bundled', 'libs')`. -/
def BUNDLED_LIBS (scriptDir : String) : String :=
  ospathjoin (ospathjoin (ospathjoin scriptDir "..") "bundled") "libs"

/-- `DEV_SERVER_ROOT = os.path.abspath(os.path.join(os.path.dirname(__file__), '..', '..', 'pywire-language-server'))`. -/
def DEV_SERVER_ROOT (fs : FS) (scriptDir : String) : String :=
  fs.abspath (ospathjoin (ospathjoin (ospathjoin scriptDir "..") "..") "pywire-language-server")

/-- `DEV_SERVER_SRC = os.path.join(DEV_SERVER_ROOT, 'src')`. -/
def DEV_SERVER_SRC (fs : FS) (scriptDir : String) : String :=
  ospathjoin (DEV_SERVER_ROOT fs scriptDir) "src"

/-- Lines 7-14: the two unconditional `sys.path.insert(0, ...)` calls. -/
def pathResolver (fs : FS) (scriptDir : String) (env : Env) : Env :=
  let env1 : Env := { env with sysPath := BUNDLED_LIBS scriptDir :: env.sysPath }
  { env1 with sysPath := DEV_SERVER_SRC fs scriptDir :: env1.sysPath }

/-- Lines 23-31: `for item in os.listdir(lib_dir): ...` with the `break`
on the first prefix-matching entry whose `site-packages` exists.  When the
match is taken, `site-packages` is prepended to `sys.path` and
`os.environ["PATH"] = bin_dir + os.pathsep + os.environ.get("PATH", "")`. -/
def venvLoop (fs : FS) (libDir venvDir : String) : List String → Env → Env
  | [], env => env
  | item :: rest, env =>
    if pyStartsWith item "python" then
      let sitePackages := ospathjoin (ospathjoin libDir item) "site-packages"
      if fs.pathExists sitePackages then
        { sysPath := sitePackages :: env.sysPath,
          pathVar := some (ospathjoin venvDir "bin" ++ pathsep ++ env.pathVar.getD "") }
      else
        venvLoop fs libDir venvDir rest env
    else
      venvLoop fs libDir venvDir rest env

/-- Lines 17-31: the Environment Locator block guarded by
`if os.path.exists(venv_dir)` and `if os.path.exists(lib_dir)`. -/
def environmentLocator (fs : FS) (devRoot : String) (env : Env) : Env :=
  let venvDir := ospathjoin devRoot ".venv"
  if fs.pathExists venvDir then
    let libDir := ospathjoin venvDir "lib"
    if fs.pathExists libDir then
      venvLoop fs libDir venvDir (fs.listdir libDir) env
    else env
  else env

/-- Lines 7-31: the whole path-setup prefix of the launcher. -/
def setup (fs : FS) (scriptDir : String) (env : Env) : Env :=
  environmentLocator fs (DEV_SERVER_ROOT fs scriptDir) (pathResolver fs scriptDir env)

/-- The hard-coded log file path of line 37. -/
def logFilePath : String := "/Users/rholmdahl/projects/pywire/.cursor/debug.log"

/-- The JSON record of lines 38-50, modelled field by field (the wall-clock
timestamp is outside the embedding and omitted). -/
structure LogRecord where
  sessionId : String
  runId : String
  hypothesisId : String
  location : String
  message : String
  sysPathData : List String
  bundledLibsData : String
  devSrcData : String
deriving DecidableEq, Repr

/-- The record written by line 51, built from the current state. -/
def mkLogRecord (fs : FS) (scriptDir : String) (env : Env) : LogRecord :=
  { sessionId := "debug-session"
    runId := "run_launcher"
    hypothesisId := "H4_vendored"
    location := "lsp_launcher:start"
    message := "Launcher started"
    sysPathData := env.sysPath
    bundledLibsData := BUNDLED_LIBS scriptDir
    devSrcData := DEV_SERVER_SRC fs scriptDir }

/-- Lines 35-53: the agent-log block.  Opening the log for append may
fail; the surrounding `except Exception: pass` swallows everything, so the
block yields the state unchanged and at most a written record. -/
def agentLogBlock (fs : FS) (scriptDir : String) (env : Env) : Env × Option LogRecord :=
  if fs.openAppendOk logFilePath then
    (env, some (mkLogRecord fs scriptDir env))
  else
    (env, none)

/-- Result of one Python step inside the final `try` block: the import on
line 57 or the `start()` call on line 59. -/
inductive ImportStep where
  | ok
  | importError (msg : String)
  | otherError (msg : String)
deriving DecidableEq, Repr

/-- Observable outcome of the launcher process. -/
inductive Outcome where
  | started
  | failed (stderrLines : List String) (exitCode : Nat)
  | uncaught (msg : String)
deriving DecidableEq, Repr

/-- Line 62: `f"Failed to import language server: {e}\n"`. -/
def stderrImportFail (msg : String) : String :=
  "Failed to import language server: " ++ msg ++ "\n"

/-- Line 63: `f"sys.path: {sys.path}\n"`. -/
def stderrSysPath (sysPath : List String) : String :=
  "sys.path: " ++ toString sysPath ++ "\n"

/-- Sequencing of the `try` body: `start()` runs only when the import
succeeded. -/
def tryOutcome (importRes startRes : ImportStep) : ImportStep :=
  match importRes with
  | .ok => startRes
  | r => r

/-- Lines 56-64: `except ImportError` writes the two stderr lines and
exits 1; any other exception propagates uncaught. -/
def entryInvoker (importRes startRes : ImportStep) (env : Env) : Outcome :=
  match tryOutcome importRes startRes with
  | .ok => .started
  | .importError msg => .failed [stderrImportFail msg, stderrSysPath env.sysPath] 1
  | .otherError msg => .uncaught msg

/-- The whole launcher run: path setup, agent-log block, entry invocation. -/
def launcherRun (fs : FS) (scriptDir : String) (env0 : Env)
    (importRes startRes : ImportStep) : Outcome :=
  let env1 := setup fs scriptDir env0
  let env2 := (agentLogBlock fs scriptDir env1).1
  entryInvoker importRes startRes env2

/-- One filesystem operation performed by the launcher. -/
inductive FsOp where
  | queryExists (p : String)
  | listDirOp (p : String)
  | openAppend (p : String)
deriving DecidableEq, Repr

/-- Existence tests and directory listings are read-only; an append-mode
open is not. -/
def readOnlyOp : FsOp → Bool
  | .queryExists _ => true
  | .listDirOp _ => true
  | .openAppend _ => false

/-- Filesystem operations issued by the `for` loop of lines 23-31. -/
def venvLoopTrace (fs : FS) (libDir : String) : List String → List FsOp
  | [] => []
  | item :: rest =>
    if pyStartsWith item "python" then
      let sitePackages := ospathjoin (ospathjoin libDir item) "site-packages"
      FsOp.queryExists sitePackages ::
        (if fs.pathExists sitePackages then [] else venvLoopTrace fs libDir rest)
    else venvLoopTrace fs libDir rest

/-- Filesystem operations issued by the Environment Locator, lines 17-31. -/
def locatorTrace (fs : FS) (devRoot : String) : List FsOp :=
  let venvDir := ospathjoin devRoot ".venv"
  FsOp.queryExists venvDir ::
    (if fs.pathExists venvDir then
      let libDir := ospathjoin venvDir "lib"
      FsOp.queryExists libDir ::
        (if fs.pathExists libDir then
          FsOp.listDirOp libDir :: venvLoopTrace fs libDir (fs.listdir libDir)
        else [])
    else [])

/-- Filesystem operations issued by a whole launcher run, in order: the
locator queries followed by the append-mode open of the debug log on
line 37 (lines 7-14 perform no filesystem operation). -/
def launcherTrace (fs : FS) (scriptDir : String) : List FsOp :=
  locatorTrace fs (DEV_SERVER_ROOT fs scriptDir) ++ [FsOp.openAppend logFilePath]

/-- Specification-side view of the scan of lines 23-31: the first listing
entry that both starts with `python` and has an existing `site-packages`
subdirectory. -/
def firstUsableMatch (fs : FS) (libDir : String) : List String → Option String
  | [] => none
  | item :: rest =>
    if pyStartsWith item "python" &&
        fs.pathExists (ospathjoin (ospathjoin libDir item) "site-packages") then
      some item
    else firstUsableMatch fs libDir rest

/-- The `site-packages` directory the locator ends up using, if any. -/
def locatorFound (fs : FS) (devRoot : String) : Option String :=
  let venvDir := ospathjoin devRoot ".venv"
  if fs.pathExists venvDir then
    let libDir := ospathjoin venvDir "lib"
    if fs.pathExists libDir then
      (firstUsableMatch fs libDir (fs.listdir libDir)).map
        (fun item => ospathjoin (ospathjoin libDir item) "site-packages")
    else none
  else none

/-- Modelled from the spec: the "bundled executable directory nested under
the bundled dependency directory" of section 4.1.  The source contains no
code computing or using such a directory; this definition follows the
spec's words (a directory nested under the bundled dependency directory). -/
def bundledExeDir (scriptDir : String) : String :=
  ospathjoin (BUNDLED_LIBS scriptDir) "bin"

/-! ### Concrete filesystem oracles used as test inputs -/

/-- A filesystem on which every existence test succeeds and every listing
is empty. -/
def fsAll : FS :=
  { pathExists := fun _ => true
    listdir := fun _ => []
    abspath := id
    openAppendOk := fun _ => true }

/-- A filesystem on which every existence test fails. -/
def fsNone : FS :=
  { pathExists := fun _ => false
    listdir := fun _ => []
    abspath := id
    openAppendOk := fun _ => false }

/-- A development checkout whose `.venv/lib` holds two `python*` entries;
only the second one has a `site-packages` directory. -/
def fsTwoPythons : FS :=
  { pathExists := fun p =>
      p == "/repo/pywire-language-server/.venv" ||
      p == "/repo/pywire-language-server/.venv/lib" ||
      p == "/repo/pywire-language-server/.venv/lib/python3.11/site-packages"
    listdir := fun p =>
      if p == "/repo/pywire-language-server/.venv/lib" then
        ["python3.10", "python3.11"]
      else []
    abspath := fun _ => "/repo/pywire-language-server"
    openAppendOk := fun _ => true }

/-- A development checkout where `.venv` exists but holds no `lib`
directory at all. -/
def fsVenvOnly : FS :=
  { pathExists := fun p => p == "/repo/pywire-language-server/.venv"
    listdir := fun _ => []
    abspath := fun _ => "/repo/pywire-language-server"
    openAppendOk := fun _ => true }

/-! ### Characterization of the Environment Locator -/

/-- The scan loop of lines 23-31 computes exactly the effect described by
`firstUsableMatch`: the state is rewritten on the first listing entry that
starts with `python` and has an existing `site-packages`, and is left
untouched when no such entry exists. -/
lemma venvLoop_eq (fs : FS) (libDir venvDir : String) (l : List String) (env : Env) :
    venvLoop fs libDir venvDir l env =
      match firstUsableMatch fs libDir l with
      | none => env
      | some item =>
          { sysPath := ospathjoin (ospathjoin libDir item) "site-packages" :: env.sysPath,
            pathVar := some (ospathjoin venvDir "bin" ++ pathsep ++ env.pathVar.getD "") } := by
  induction l with
  | nil => rfl
  | cons item rest ih =>
      by_cases h1 : pyStartsWith item "python" = true
      · by_cases h2 :
          fs.pathExists (ospathjoin (ospathjoin libDir item) "site-packages") = true
        · simp [venvLoop, firstUsableMatch, h1, h2]
        · simp only [Bool.not_eq_true] at h2
          simp [venvLoop, firstUsableMatch, h1, h2, ih]
      · simp only [Bool.not_eq_true] at h1
        simp [venvLoop, firstUsableMatch, h1, ih]

/-- Lines 17-31 as a whole: the locator either leaves the state unchanged
(`locatorFound` is `none`) or prepends the found `site-packages` to
`sys.path` and `.venv/bin` to `PATH`. -/
lemma environmentLocator_eq (fs : FS) (devRoot : String) (env : Env) :
    environmentLocator fs devRoot env =
      match locatorFound fs devRoot with
      | none => env
      | some sp =>
          { sysPath := sp :: env.sysPath,
            pathVar := some (ospathjoin (ospathjoin devRoot ".venv") "bin" ++ pathsep ++
                env.pathVar.getD "") } := by
  unfold environmentLocator locatorFound
  by_cases hv : fs.pathExists (ospathjoin devRoot ".venv") = true
  · by_cases hl : fs.pathExists (ospathjoin (ospathjoin devRoot ".venv") "lib") = true
    · simp only [hv, hl, if_true]
      rw [venvLoop_eq]
      cases firstUsableMatch fs (ospathjoin (ospathjoin devRoot ".venv") "lib")
          (fs.listdir (ospathjoin (ospathjoin devRoot ".venv") "lib")) with
      | none => rfl
      | some item => rfl
    · simp only [Bool.not_eq_true] at hl
      simp [hv, hl]
  · simp only [Bool.not_eq_true] at hv
    simp [hv]

/-- The scan of lines 23-31 only consults existence tests, so the
`openAppendOk` component of the oracle is irrelevant to it. -/
lemma firstUsableMatch_openAppendOk_irrel (fs : FS) (f : String → Bool)
    (libDir : String) (l : List String) :
    firstUsableMatch { fs with openAppendOk := f } libDir l =
      firstUsableMatch fs libDir l := by
  induction l with
  | nil => rfl
  | cons x rest ih =>
      simp only [firstUsableMatch]
      rw [ih]

/-- The locator result does not depend on the `openAppendOk` component. -/
lemma locatorFound_openAppendOk_irrel (fs : FS) (f : String → Bool) (devRoot : String) :
    locatorFound { fs with openAppendOk := f } devRoot = locatorFound fs devRoot := by
  simp only [locatorFound]
  rw [firstUsableMatch_openAppendOk_irrel]

/-- The whole path setup does not depend on the `openAppendOk` component. -/
lemma setup_openAppendOk_irrel (fs : FS) (f : String → Bool) (d : String) (env : Env) :
    setup { fs with openAppendOk := f } d env = setup fs d env := by
  unfold setup
  rw [environmentLocator_eq, environmentLocator_eq]
  have hroot : DEV_SERVER_ROOT { fs with openAppendOk := f } d = DEV_SERVER_ROOT fs d := rfl
  have hpr : pathResolver { fs with openAppendOk := f } d env = pathResolver fs d env := rfl
  rw [hroot, hpr, locatorFound_openAppendOk_irrel]

/-! ### Claim theorems -/

/-- C5: after setup, the module-search list is exactly the isolated
environment's site-packages directory (when one was found) in front of the
development source directory, in front of the bundled dependency
directory, in front of all pre-existing entries; every registration is a
prepend. -/
theorem sysPath_precedence (fs : FS) (d : String) (env : Env) :
    (setup fs d env).sysPath =
        DEV_SERVER_SRC fs d :: BUNDLED_LIBS d :: env.sysPath ∨
      ∃ sp, (setup fs d env).sysPath =
        sp :: DEV_SERVER_SRC fs d :: BUNDLED_LIBS d :: env.sysPath := by
  unfold setup
  rw [environmentLocator_eq]
  cases locatorFound fs (DEV_SERVER_ROOT fs d) with
  | none => exact Or.inl rfl
  | some sp => exact Or.inr ⟨sp, rfl⟩

/-- C7: when the `.venv` directory does not exist, the Environment Locator
leaves the whole state (module-search list and `PATH`) unchanged. -/
theorem locator_noop_without_venv (fs : FS) (devRoot : String) (env : Env)
    (h : fs.pathExists (ospathjoin devRoot ".venv") = false) :
    environmentLocator fs devRoot env = env := by
  simp [environmentLocator, h]

/-- Witness for C7 at a concrete filesystem with no `.venv`. -/
theorem locator_noop_without_venv_witness :
    fsNone.pathExists (ospathjoin "/repo" ".venv") = false ∧
      environmentLocator fsNone "/repo" ⟨["/a"], some "/usr/bin"⟩ =
        ⟨["/a"], some "/usr/bin"⟩ :=
  ⟨rfl, locator_noop_without_venv fsNone "/repo" ⟨["/a"], some "/usr/bin"⟩ rfl⟩

/-- C8: every rewrite of the `PATH` variable keeps the prior value
(defaulting to the empty string when unset) unmodified as a suffix, with
the new directory and one path separator prepended in front of it; runs
that perform no rewrite leave the variable untouched. -/
theorem pathVar_rewrite_preserves_suffix (fs : FS) (d : String) (env : Env) :
    (setup fs d env).pathVar = env.pathVar ∨
      (setup fs d env).pathVar =
        some (ospathjoin (ospathjoin (DEV_SERVER_ROOT fs d) ".venv") "bin" ++
          pathsep ++ env.pathVar.getD "") := by
  unfold setup
  rw [environmentLocator_eq]
  cases locatorFound fs (DEV_SERVER_ROOT fs d) with
  | none => exact Or.inl rfl
  | some sp => exact Or.inr rfl

/-- C6: an `ImportError` during entry resolution produces exactly the two
stderr lines (the failure detail and the resolved module-search list) and
exit status 1; conversely, every diagnostic-and-exit outcome of the entry
invoker has exit status 1 and exactly those two lines. -/
theorem import_failure_two_lines_exit1 (msg : String) (startRes : ImportStep) (env : Env) :
    entryInvoker (.importError msg) startRes env =
        .failed [stderrImportFail msg, stderrSysPath env.sysPath] 1 ∧
      ∀ (i s : ImportStep) (e : Env) (ls : List String) (c : Nat),
        entryInvoker i s e = .failed ls c →
          c = 1 ∧ ∃ m, ls = [stderrImportFail m, stderrSysPath e.sysPath] := by
  refine ⟨rfl, ?_⟩
  intro i s e ls c h
  cases i with
  | ok =>
      cases s with
      | ok => simp [entryInvoker, tryOutcome] at h
      | importError m =>
          simp [entryInvoker, tryOutcome] at h
          exact ⟨h.2.symm, m, h.1.symm⟩
      | otherError m => simp [entryInvoker, tryOutcome] at h
  | importError m =>
      simp [entryInvoker, tryOutcome] at h
      exact ⟨h.2.symm, m, h.1.symm⟩
  | otherError m => simp [entryInvoker, tryOutcome] at h

/-- Witness for C6 at a concrete failing import. -/
theorem import_failure_two_lines_exit1_witness :
    entryInvoker (.importError "No module named pywire_language_server") .ok ⟨[], none⟩ =
        .failed [stderrImportFail "No module named pywire_language_server",
          stderrSysPath ([] : List String)] 1 ∧
      ((1 : Nat) = 1 ∧ ∃ m,
        [stderrImportFail "No module named pywire_language_server",
          stderrSysPath ([] : List String)] =
          [stderrImportFail m, stderrSysPath ([] : List String)]) := by
  have h := import_failure_two_lines_exit1 "No module named pywire_language_server"
    .ok ⟨[], none⟩
  exact ⟨h.1, h.2 _ .ok ⟨[], none⟩ _ _ h.1⟩

/-- C9: an `ImportError` raised by `start()` itself, after a successful
import, is handled by the very same `except ImportError` arm: same two
stderr lines, same exit status 1. -/
theorem start_importError_same_handling (msg : String) (env : Env) :
    entryInvoker .ok (.importError msg) env = entryInvoker (.importError msg) .ok env ∧
      entryInvoker .ok (.importError msg) env =
        .failed [stderrImportFail msg, stderrSysPath env.sysPath] 1 :=
  ⟨rfl, rfl⟩

/-- C10: the agent-log block returns the state unchanged whether or not
the append-mode open succeeds (the `except Exception: pass` discards every
failure), and the outcome of the whole run does not depend on the log
write succeeding. -/
theorem agent_log_block_no_effect (fs : FS) (d : String) (env : Env)
    (importRes startRes : ImportStep) (b1 b2 : Bool) :
    (agentLogBlock fs d env).1 = env ∧
      launcherRun { fs with openAppendOk := fun _ => b1 } d env importRes startRes =
        launcherRun { fs with openAppendOk := fun _ => b2 } d env importRes startRes := by
  constructor
  · unfold agentLogBlock
    split <;> rfl
  · unfold launcherRun agentLogBlock
    split <;> split <;>
      rw [setup_openAppendOk_irrel fs (fun _ => b1) d env,
        setup_openAppendOk_irrel fs (fun _ => b2) d env]

/-! ### String disambiguation helpers -/

/-- Character-level view of `ospathjoin`. -/
lemma data_ospathjoin (a b : String) :
    (ospathjoin a b).data = a.data ++ ('/' :: b.data) := by
  simp [ospathjoin, String.data_append]

/-- Two character lists that disagree at some position from the right are
distinct. -/
lemma ne_of_rev_get {l1 l2 : List Char} {n : Nat} {c1 c2 : Char}
    (h1 : l1.reverse.get? n = some c1) (h2 : l2.reverse.get? n = some c2)
    (hc : c1 ≠ c2) : l1 ≠ l2 := by
  intro h
  subst h
  rw [h1] at h2
  exact hc (Option.some.inj h2)

/-- The fifth character from the end of `A/.venv/bin` is always `v`. -/
lemma venvBin_rev4 (A : String) :
    (ospathjoin (ospathjoin A ".venv") "bin").data.reverse.get? 4 = some 'v' := by
  rw [data_ospathjoin, data_ospathjoin, List.append_assoc, List.reverse_append]
  rw [List.get?_append (by decide)]
  decide

/-- The fifth character from the end of `d/../bundled/libs/bin` is always `s`. -/
lemma bundledExeDir_rev4 (d : String) :
    (bundledExeDir d).data.reverse.get? 4 = some 's' := by
  unfold bundledExeDir BUNDLED_LIBS
  rw [data_ospathjoin, data_ospathjoin, data_ospathjoin, data_ospathjoin,
    List.append_assoc, List.append_assoc, List.append_assoc, List.reverse_append]
  rw [List.get?_append (by decide)]
  decide

/-- The environment's `bin` directory and the spec's bundled executable
directory are distinct paths, whatever the environment root and the
launcher location are. -/
lemma venvBin_ne_bundledExeDir (A d : String) :
    ospathjoin (ospathjoin A ".venv") "bin" ≠ bundledExeDir d := by
  intro h
  have h1 := venvBin_rev4 A
  have h2 := bundledExeDir_rev4 d
  rw [h, h2] at h1
  exact absurd (Option.some.inj h1) (by decide)

/-! ### Corrected claims -/

/-- C1 counterexample: a filesystem on which every path (in particular the
bundled executable directory) exists, yet the final `PATH` is the initial
`PATH` and does not contain the bundled executable directory at all. -/
theorem bundled_exe_dir_counterexample :
    fsAll.pathExists (bundledExeDir "/app/src") = true ∧
      (setup fsAll "/app/src" ⟨[], some "/usr/bin"⟩).pathVar = some "/usr/bin" ∧
      ¬ bundledExeDir "/app/src" ∈
        pathEntries ((setup fsAll "/app/src" ⟨[], some "/usr/bin"⟩).pathVar.getD "") := by
  refine ⟨rfl, by decide, by decide⟩

/-- C1 amended: the launcher never places a bundled executable directory
on `PATH`: the final `PATH` is either the initial one, or exactly the
environment's `.venv/bin` directory prepended to it — a directory that is
always distinct from the spec's bundled executable directory. -/
theorem bundled_exe_dir_never_added (fs : FS) (d : String) (env : Env) :
    ((setup fs d env).pathVar = env.pathVar ∨
      (setup fs d env).pathVar =
        some (ospathjoin (ospathjoin (DEV_SERVER_ROOT fs d) ".venv") "bin" ++
          pathsep ++ env.pathVar.getD "")) ∧
    ospathjoin (ospathjoin (DEV_SERVER_ROOT fs d) ".venv") "bin" ≠ bundledExeDir d := by
  refine ⟨?_, venvBin_ne_bundledExeDir _ _⟩
  unfold setup
  rw [environmentLocator_eq]
  cases locatorFound fs (DEV_SERVER_ROOT fs d) with
  | none => exact Or.inl rfl
  | some sp => exact Or.inr rfl

/-- C2 counterexample: with two `python*` entries in `.venv/lib` where
only the second has `site-packages`, the first prefix match
(`python3.10`) lacks `site-packages`, yet something (the second match's
`site-packages`) is still prepended to the module-search list. -/
theorem first_match_skipped_counterexample :
    pyStartsWith "python3.10" "python" = true ∧
      fsTwoPythons.listdir "/repo/pywire-language-server/.venv/lib" =
        ["python3.10", "python3.11"] ∧
      fsTwoPythons.pathExists
        "/repo/pywire-language-server/.venv/lib/python3.10/site-packages" = false ∧
      (setup fsTwoPythons "/x" ⟨[], none⟩).sysPath ≠
        (pathResolver fsTwoPythons "/x" ⟨[], none⟩).sysPath ∧
      (setup fsTwoPythons "/x" ⟨[], none⟩).sysPath =
        "/repo/pywire-language-server/.venv/lib/python3.11/site-packages" ::
          (pathResolver fsTwoPythons "/x" ⟨[], none⟩).sysPath := by
  refine ⟨by decide, rfl, by decide, by decide, by decide⟩

/-- C2 amended: the scan uses the first directory entry that both starts
with the `python` prefix and has an existing `site-packages` subdirectory;
prefix-matching entries without `site-packages` are skipped rather than
ending the search. -/
theorem locator_uses_first_usable_match (fs : FS) (devRoot : String) (env : Env)
    (item : String)
    (hv : fs.pathExists (ospathjoin devRoot ".venv") = true)
    (hl : fs.pathExists (ospathjoin (ospathjoin devRoot ".venv") "lib") = true)
    (hm : firstUsableMatch fs (ospathjoin (ospathjoin devRoot ".venv") "lib")
        (fs.listdir (ospathjoin (ospathjoin devRoot ".venv") "lib")) = some item) :
    (environmentLocator fs devRoot env).sysPath =
      ospathjoin (ospathjoin (ospathjoin (ospathjoin devRoot ".venv") "lib") item)
        "site-packages" :: env.sysPath := by
  rw [environmentLocator_eq]
  simp only [locatorFound, hv, hl, hm, if_true]
  rfl

/-- Witness for the amended C2 on the two-entry filesystem. -/
theorem locator_uses_first_usable_match_witness :
    (environmentLocator fsTwoPythons "/repo/pywire-language-server" ⟨[], none⟩).sysPath =
      ospathjoin (ospathjoin (ospathjoin
          (ospathjoin "/repo/pywire-language-server" ".venv") "lib") "python3.11")
        "site-packages" :: ([] : List String) :=
  locator_uses_first_usable_match fsTwoPythons "/repo/pywire-language-server" ⟨[], none⟩
    "python3.11" (by decide) (by decide) (by decide)

/-- C3 counterexample: `.venv` exists (its `lib` directory does not), yet
`PATH` is left unchanged instead of receiving the `.venv/bin` prefix the
claim demands. -/
theorem venv_bin_not_added_counterexample :
    fsVenvOnly.pathExists
        (ospathjoin (DEV_SERVER_ROOT fsVenvOnly "/x") ".venv") = true ∧
      (setup fsVenvOnly "/x" ⟨[], some "/usr/bin"⟩).pathVar = some "/usr/bin" ∧
      some "/usr/bin" ≠
        some (ospathjoin (ospathjoin (DEV_SERVER_ROOT fsVenvOnly "/x") ".venv") "bin" ++
          pathsep ++ "/usr/bin") := by
  refine ⟨by decide, by decide, by decide⟩

/-- C3 amended: the `.venv/bin` directory is prepended to `PATH` exactly
when the scan finds a usable `site-packages` directory (which is then
prepended to the module-search list); when the scan finds none, `PATH` is
untouched even though `.venv` exists. -/
theorem venv_bin_iff_site_packages_found (fs : FS) (devRoot : String) (env : Env) :
    (environmentLocator fs devRoot env).pathVar =
        (match locatorFound fs devRoot with
          | none => env.pathVar
          | some _ => some (ospathjoin (ospathjoin devRoot ".venv") "bin" ++ pathsep ++
              env.pathVar.getD "")) ∧
      (environmentLocator fs devRoot env).sysPath =
        (match locatorFound fs devRoot with
          | none => env.sysPath
          | some sp => sp :: env.sysPath) := by
  rw [environmentLocator_eq]
  cases locatorFound fs devRoot with
  | none => exact ⟨rfl, rfl⟩
  | some sp => exact ⟨rfl, rfl⟩

/-- C4 counterexample: the launcher's operation trace contains the
append-mode open of the debug log, an operation that is not a read-only
query. -/
theorem append_open_in_trace_counterexample :
    FsOp.openAppend logFilePath ∈ launcherTrace fsNone "/app/src" ∧
      readOnlyOp (FsOp.openAppend logFilePath) = false := by
  refine ⟨by decide, rfl⟩

/-- Every operation the scan loop issues is an existence test. -/
lemma venvLoopTrace_readonly (fs : FS) (libDir : String) (l : List String) :
    ∀ op ∈ venvLoopTrace fs libDir l, readOnlyOp op = true := by
  induction l with
  | nil => intro op h; simp [venvLoopTrace] at h
  | cons item rest ih =>
      intro op h
      by_cases h1 : pyStartsWith item "python" = true
      · by_cases h2 :
          fs.pathExists (ospathjoin (ospathjoin libDir item) "site-packages") = true
        · simp [venvLoopTrace, h1, h2] at h
          subst h
          rfl
        · simp only [Bool.not_eq_true] at h2
          simp [venvLoopTrace, h1, h2] at h
          rcases h with h | h
          · subst h; rfl
          · exact ih op h
      · simp only [Bool.not_eq_true] at h1
        simp [venvLoopTrace, h1] at h
        exact ih op h

/-- Every operation the Environment Locator issues is an existence test or
a directory listing. -/
lemma locatorTrace_readonly (fs : FS) (devRoot : String) :
    ∀ op ∈ locatorTrace fs devRoot, readOnlyOp op = true := by
  intro op h
  simp only [locatorTrace] at h
  rcases List.mem_cons.mp h with h | h
  · subst h; rfl
  · by_cases hv : fs.pathExists (ospathjoin devRoot ".venv") = true
    · rw [if_pos hv] at h
      rcases List.mem_cons.mp h with h | h
      · subst h; rfl
      · by_cases hl : fs.pathExists (ospathjoin (ospathjoin devRoot ".venv") "lib") = true
        · rw [if_pos hl] at h
          rcases List.mem_cons.mp h with h | h
          · subst h; rfl
          · exact venvLoopTrace_readonly fs _ _ op h
        · rw [if_neg hl] at h
          simp at h
    · rw [if_neg hv] at h
      simp at h

/-- C4 amended: every filesystem operation the launcher performs is a
read-only query, except for the single append-mode open of the hard-coded
debug log file in the diagnostic-logging block. -/
theorem fs_ops_readonly_except_log (fs : FS) (d : String) :
    ∀ op ∈ launcherTrace fs d,
      readOnlyOp op = true ∨ op = FsOp.openAppend logFilePath := by
  intro op h
  unfold launcherTrace at h
  rcases List.mem_append.mp h with h | h
  · exact Or.inl (locatorTrace_readonly fs _ op h)
  · simp at h
    exact Or.inr h

/-- Witness for the amended C4: the locator's first existence test is in
the trace and is read-only. -/
theorem fs_ops_readonly_except_log_witness :
    readOnlyOp (FsOp.queryExists
        (ospathjoin (DEV_SERVER_ROOT fsNone "/app/src") ".venv")) = true ∨
      FsOp.queryExists (ospathjoin (DEV_SERVER_ROOT fsNone "/app/src") ".venv") =
        FsOp.openAppend logFilePath :=
  fs_ops_readonly_except_log fsNone "/app/src"
    (FsOp.queryExists (ospathjoin (DEV_SERVER_ROOT fsNone "/app/src") ".venv"))
    (by decide)

end PywireLauncher
